import Mathlib

/-
Verification of the feed-cursor / new-item-detection protocol of the
Udemy coupon bot worker (bot_worker.py), shallowly embedded in Lean.
-/

namespace UdemyBot

/-- One scraped course listing, as built by the scraper classes
(dictionaries with these keys; string-valued keys may be absent or None,
modelled as Option String). -/
structure Item where
  source : Option String
  post_url : Option String
  title : Option String
  image_url : Option String
  description : Option String
  udemy_url : Option String
  slug : Option String
  coupon_code : Option String
  is_free : Bool
  deriving DecidableEq

/-- Python str() rendering of a possibly-absent value inside an f-string:
a present string renders as itself, None renders as the text None. -/
def pyStr : Option String → String
  | none => "None"
  | some s => s

/-- Embedding of make_id (bot_worker.py line 146): the Python f-string
interpolation of source, slug and coupon with separators. -/
def make_id (source : String) (slug coupon : Option String) : String :=
  source ++ "|" ++ pyStr slug ++ ":" ++ pyStr coupon

/-- The scan loop inside find_new (bot_worker.py lines 153-158): collect
items in order until the first one whose fingerprint equals last_id,
excluding the matched item. -/
def scanUntil (source : String) (last_id : String) : List Item → List Item
  | [] => []
  | it :: rest =>
    if make_id source it.slug it.coupon_code = last_id then []
    else it :: scanUntil source last_id rest

/-- Embedding of find_new (bot_worker.py lines 149-159). -/
def find_new (items : List Item) (last_id : Option String) (source : String) :
    List Item :=
  match last_id with
  | none => items.reverse
  | some lid => (scanUntil source lid items).reverse

/-- The posting loop of process_source (bot_worker.py lines 182-187).
State is the pair (in-memory cursor, persisted cursor): on a successful
post both are set to the posted item's fingerprint (the assignment to
last_sent_state followed by save_last_sent); on a failed post the state
is untouched and the loop continues with the next item. -/
def postLoop (post : Item → Bool) (name : String) :
    List Item → Option String × Option String → Option String × Option String
  | [], st => st
  | course :: rest, st =>
    if post course then
      postLoop post name rest
        (some (make_id name course.slug course.coupon_code),
         some (make_id name course.slug course.coupon_code))
    else
      postLoop post name rest st

/-- Embedding of process_source (bot_worker.py lines 164-187) for one
source: the scrape call either raises (Except.error, caught and logged,
returning with the cursor untouched) or yields the items list; empty
fetches and empty new-item sets leave the cursor untouched; otherwise
the posting loop runs and the resulting in-memory cursor is kept. -/
def process_source (scrape : Except String (List Item)) (name : String)
    (post : Item → Bool) (cursor : Option String) : Option String :=
  match scrape with
  | Except.error _ => cursor
  | Except.ok items =>
    if items.isEmpty then cursor
    else
      let fresh := find_new items cursor name
      if fresh.isEmpty then cursor
      else (postLoop post name fresh (cursor, cursor)).1

/-- The per-cycle environment of job_scrape_all: the outcome of each
scraper's scrape call and the outcome of each Telegram post attempt. -/
structure CycleEnv where
  csScrape : Except String (List Item)
  ddScrape : Except String (List Item)
  post : Item → Bool

/-- The cursor state kept in last_sent_state for the two sources. -/
structure Cursors where
  couponscorpion : Option String
  discudemy : Option String

/-- Embedding of job_scrape_all (bot_worker.py lines 192-200): process
couponscorpion first, then discudemy, each with its own cursor. -/
def job_scrape_all (env : CycleEnv) (st : Cursors) : Cursors :=
  let cs := process_source env.csScrape "couponscorpion" env.post st.couponscorpion
  let dd := process_source env.ddScrape "discudemy" env.post st.discudemy
  ⟨cs, dd⟩

/-- State of the last_sent.json file as load_last_sent observes it:
missing, present but not valid JSON, or parsed to a key-value mapping
(values are a cursor string or null). -/
inductive FileState where
  | missing : FileState
  | unparsable : FileState
  | parsed : List (String × Option String) → FileState

/-- Embedding of load_last_sent (bot_worker.py lines 49-55): a missing
file and a parse failure both yield the empty mapping; a parsed file
yields its mapping unchanged, whatever keys it holds. -/
def load_last_sent : FileState → List (String × Option String)
  | FileState.missing => []
  | FileState.unparsable => []
  | FileState.parsed entries => entries

/-- Python dict.setdefault: add the key with the default value only when
the key is absent; keep the mapping unchanged otherwise. -/
def setdefault (m : List (String × Option String)) (k : String)
    (v : Option String) : List (String × Option String) :=
  if m.any (fun p => p.1 == k) then m else m ++ [(k, v)]

/-- The module-level initialisation (bot_worker.py lines 63-65): load the
file, then setdefault the discudemy and couponscorpion keys to None. -/
def init_last_sent (fs : FileState) : List (String × Option String) :=
  setdefault (setdefault (load_last_sent fs) "discudemy" none)
    "couponscorpion" none

/-- The monitor interval (bot_worker.py line 30). -/
def MONITOR_INTERVAL_SECONDS : Nat := 60

/-- Fire times of the worker job, in seconds after scheduler.start()
(bot_worker.py lines 212-214): the job is added with an interval trigger
of MONITOR_INTERVAL_SECONDS and no explicit first run time, so the
scheduling library fires it one full interval after start and then every
interval: the k-th firing (counting from 0) is at (k+1) intervals. -/
def workerFireTime (k : Nat) : Nat := (k + 1) * MONITOR_INTERVAL_SECONDS

/-- Spec-side description of the posting loop outcome: the cursor pair
ends at the fingerprint of the last successfully posted item, or stays
at its initial value when no post succeeded. -/
def lastSuccessFingerprint (post : Item → Bool) (name : String)
    (fresh : List Item) (st : Option String × Option String) :
    Option String × Option String :=
  match (fresh.filter post).reverse with
  | [] => st
  | it :: _ =>
    (some (make_id name it.slug it.coupon_code),
     some (make_id name it.slug it.coupon_code))

/-- An item carrying only source, slug and coupon, as used in tests. -/
def mkItem (slug coupon : String) : Item :=
  ⟨some "src", none, none, none, none, none, some slug, some coupon, false⟩

/-- Eleven items with pairwise distinct fingerprints, one more than the
largest fallback cap the specification allows. -/
def capItems : List Item :=
  [mkItem "s0" "c", mkItem "s1" "c", mkItem "s2" "c", mkItem "s3" "c",
   mkItem "s4" "c", mkItem "s5" "c", mkItem "s6" "c", mkItem "s7" "c",
   mkItem "s8" "c", mkItem "s9" "c", mkItem "s10" "c"]

/-- Post outcome used in the C5 scenario: every post succeeds except the
item with slug b. -/
def postFailB : Item → Bool := fun it => it.slug != some "b"

/-- A concrete cycle environment in which the couponscorpion scrape
raises while the discudemy scrape returns one item. -/
def c6Env : CycleEnv :=
  ⟨Except.error "boom", Except.ok [mkItem "e" "q"], fun _ => true⟩

/-- A scraped item as first observed. -/
def itemOld : Item :=
  ⟨some "couponscorpion", some "p", some "Old Title", some "img-old.jpg",
   some "old description", some "u", some "course-1", some "CODE1", false⟩

/-- The same logical offer rescraped later with regenerated title,
image and description. -/
def itemNew : Item :=
  ⟨some "couponscorpion", some "p", some "New Title", some "img-new.jpg",
   some "new description", some "u", some "course-1", some "CODE1", false⟩

theorem scanUntil_no_match (source lid : String) (items : List Item)
    (h : ∀ it ∈ items, make_id source it.slug it.coupon_code ≠ lid) :
    scanUntil source lid items = items := by
  induction items with
  | nil => rfl
  | cons a t ih =>
      have ha : make_id source a.slug a.coupon_code ≠ lid :=
        h a (List.mem_cons_self a t)
      simp only [scanUntil, if_neg ha, List.cons.injEq, true_and]
      exact ih (fun it hit => h it (List.mem_cons_of_mem a hit))

theorem scanUntil_first_match (source : String) (pre post : List Item)
    (m : Item)
    (hpre : ∀ it ∈ pre, make_id source it.slug it.coupon_code ≠
      make_id source m.slug m.coupon_code) :
    scanUntil source (make_id source m.slug m.coupon_code)
      (pre ++ m :: post) = pre := by
  induction pre with
  | nil => simp [scanUntil]
  | cons a t ih =>
      have ha : make_id source a.slug a.coupon_code ≠
          make_id source m.slug m.coupon_code :=
        hpre a (List.mem_cons_self a t)
      simp only [List.cons_append, scanUntil, if_neg ha, List.cons.injEq,
        true_and]
      exact ih (fun it hit => hpre it (List.mem_cons_of_mem a hit))

theorem mem_setdefault (m : List (String × Option String)) (k0 : String)
    (v0 : Option String) (p : String × Option String) (h : p ∈ m) :
    p ∈ setdefault m k0 v0 := by
  unfold setdefault
  split
  · exact h
  · exact List.mem_append_left _ h

/-- C2: with a cursor equal to the fingerprint of the item m whose first
occurrence follows the fingerprint-free block pre, find_new returns
exactly reverse(pre): the matched item is excluded, the first occurrence
wins, pre = [] yields [] and post = [] yields the whole page but the
last item, reversed. -/
theorem C2_find_new_first_match (pre post : List Item) (m : Item)
    (source : String)
    (hpre : ∀ it ∈ pre, make_id source it.slug it.coupon_code ≠
      make_id source m.slug m.coupon_code) :
    find_new (pre ++ m :: post)
      (some (make_id source m.slug m.coupon_code)) source = pre.reverse := by
  show (scanUntil source (make_id source m.slug m.coupon_code)
    (pre ++ m :: post)).reverse = pre.reverse
  rw [scanUntil_first_match source pre post m hpre]

/-- Witness for C2 at a concrete page: cursor matches the middle item,
so only the newer item before it is returned. -/
theorem C2_witness :
    find_new [mkItem "b" "y", mkItem "a" "x", mkItem "c" "z"]
      (some (make_id "src" (some "a") (some "x"))) "src" =
      [mkItem "b" "y"] :=
  C2_find_new_first_match [mkItem "b" "y"] [mkItem "c" "z"]
    (mkItem "a" "x") "src" (by decide)

/-- C3: with no stored cursor, find_new returns the whole fetched page
reversed to oldest-first order. -/
theorem C3_find_new_no_cursor (items : List Item) (source : String)
    (h : items ≠ []) : find_new items none source = items.reverse := rfl

/-- Witness for C3 at a concrete two-item page. -/
theorem C3_witness :
    find_new [mkItem "a" "x", mkItem "b" "y"] none "src" =
      [mkItem "b" "y", mkItem "a" "x"] :=
  C3_find_new_no_cursor [mkItem "a" "x", mkItem "b" "y"] "src" (by simp)

/-- C1 counterexample: an eleven-item page none of whose fingerprints
equals the cursor makes find_new return all eleven items, exceeding
every fallback cap in the specified range of one to ten. -/
theorem C1_counterexample :
    (capItems.all
      (fun it => make_id "src" it.slug it.coupon_code != "absent")) = true ∧
    10 < (find_new capItems (some "absent") "src").length := by decide

/-- C1 amended: when the cursor fingerprint is not present in any item,
find_new returns the entire fetched page reversed to oldest-first; no
fallback cap is applied, so the result length equals the page length. -/
theorem C1_find_new_cursor_missing (items : List Item) (source lid : String)
    (h : ∀ it ∈ items, make_id source it.slug it.coupon_code ≠ lid) :
    find_new items (some lid) source = items.reverse := by
  show (scanUntil source lid items).reverse = items.reverse
  rw [scanUntil_no_match source lid items h]

/-- Witness for the amended C1 at a concrete two-item page whose
fingerprints both differ from the cursor. -/
theorem C1_witness :
    find_new [mkItem "a" "x", mkItem "b" "y"] (some "absent") "src" =
      [mkItem "b" "y", mkItem "a" "x"] :=
  C1_find_new_cursor_missing [mkItem "a" "x", mkItem "b" "y"] "src" "absent"
    (by decide)

/-- C4 counterexample: with both slug and coupon missing, make_id does
not substitute the empty string; the Python f-string renders None as the
text None, so the fingerprint differs from the empty-substitution form. -/
theorem C4_counterexample :
    make_id "couponscorpion" none none ≠
      "couponscorpion" ++ "|" ++ "" ++ ":" ++ "" := by decide

/-- C4 amended: make_id is pure and total and returns
source, a bar, the slug, a colon and the coupon, where a present field
renders as itself and a missing field renders as the text None. -/
theorem C4_make_id_format :
    (∀ source slug coupon : String,
      make_id source (some slug) (some coupon) =
        source ++ "|" ++ slug ++ ":" ++ coupon) ∧
    (∀ source slug : String,
      make_id source (some slug) none =
        source ++ "|" ++ slug ++ ":" ++ "None") ∧
    (∀ source coupon : String,
      make_id source none (some coupon) =
        source ++ "|" ++ "None" ++ ":" ++ coupon) ∧
    (∀ source : String,
      make_id source none none =
        source ++ "|" ++ "None" ++ ":" ++ "None") :=
  ⟨fun _ _ _ => rfl, fun _ _ => rfl, fun _ _ => rfl, fun _ => rfl⟩

/-- C5: the posting loop sets both the in-memory and the persisted
cursor to the fingerprint of each successfully posted item and leaves
them untouched on failure, so it ends at the fingerprint of the last
successfully posted item, or at the initial state when no post
succeeded. -/
theorem C5_cursor_last_successful_post (post : Item → Bool) (name : String)
    (fresh : List Item) (st : Option String × Option String) :
    postLoop post name fresh st = lastSuccessFingerprint post name fresh st := by
  induction fresh generalizing st with
  | nil => rfl
  | cons course rest ih =>
      cases h : post course with
      | true =>
          simp only [postLoop, h, if_true, ih, lastSuccessFingerprint,
            List.filter_cons, if_pos, List.reverse_cons]
          cases hr : (rest.filter post).reverse with
          | nil => simp [hr]
          | cons it t => simp [hr]
      | false =>
          simp [postLoop, h, ih, lastSuccessFingerprint, List.filter_cons]

/-- Witness for C5 at the failure scenario of the specification: four
items posted oldest-first, the post of the item with slug b fails, and
the final cursor pair is the fingerprint of the last successful item. -/
theorem C5_witness :
    postLoop postFailB "src"
      [mkItem "d" "w", mkItem "c" "z", mkItem "b" "y", mkItem "a" "x"]
      (none, none) =
      (some (make_id "src" (some "a") (some "x")),
       some (make_id "src" (some "a") (some "x"))) := by
  rw [C5_cursor_last_successful_post]
  rfl

/-- C6: when the couponscorpion scrape raises, that source is skipped
with its cursor unchanged, and the discudemy source is still processed
exactly as it would be on its own. -/
theorem C6_source_isolation (env : CycleEnv) (st : Cursors) (e : String)
    (h : env.csScrape = Except.error e) :
    (job_scrape_all env st).couponscorpion = st.couponscorpion ∧
    (job_scrape_all env st).discudemy =
      process_source env.ddScrape "discudemy" env.post st.discudemy := by
  constructor
  · simp [job_scrape_all, process_source, h]
  · rfl

/-- Witness for C6 at a concrete environment where the first scrape
raises and the second returns one item. -/
theorem C6_witness :
    (job_scrape_all c6Env ⟨none, none⟩).couponscorpion = none ∧
    (job_scrape_all c6Env ⟨none, none⟩).discudemy =
      process_source c6Env.ddScrape "discudemy" c6Env.post none :=
  C6_source_isolation c6Env ⟨none, none⟩ "boom" rfl

/-- C7: load_last_sent maps a missing file and an unparsable file to the
empty mapping; initialisation then only adds the two absent source keys
as unset, and every key-value pair present in a parsed file is preserved
through loading and initialisation. -/
theorem C7_load_last_sent_tolerant :
    load_last_sent FileState.missing = [] ∧
    load_last_sent FileState.unparsable = [] ∧
    init_last_sent FileState.missing =
      [("discudemy", none), ("couponscorpion", none)] ∧
    ∀ entries : List (String × Option String), ∀ k : String,
      ∀ v : Option String,
      (k, v) ∈ entries → (k, v) ∈ init_last_sent (FileState.parsed entries) := by
  refine ⟨rfl, rfl, by decide, ?_⟩
  intro entries k v h
  exact mem_setdefault _ _ _ _ (mem_setdefault _ _ _ _ h)

/-- Witness for C7: an unknown legacy key present in the parsed file
survives loading and initialisation. -/
theorem C7_witness :
    ("legacy", some "old") ∈
      init_last_sent (FileState.parsed [("legacy", some "old")]) :=
  C7_load_last_sent_tolerant.2.2.2 [("legacy", some "old")] "legacy"
    (some "old") (List.mem_singleton.mpr rfl)

/-- C8: the fingerprint computed from an item reads only its slug and
coupon fields, so two items agreeing on source, slug and coupon but
differing in title, description or image get the same fingerprint. -/
theorem C8_fingerprint_field_independent (source : String) (a b : Item)
    (h1 : a.slug = b.slug) (h2 : a.coupon_code = b.coupon_code) :
    make_id source a.slug a.coupon_code =
      make_id source b.slug b.coupon_code := by
  rw [h1, h2]

/-- Witness for C8 at two concrete items that differ exactly in title,
image and description. -/
theorem C8_witness :
    make_id "couponscorpion" itemOld.slug itemOld.coupon_code =
      make_id "couponscorpion" itemNew.slug itemNew.coupon_code :=
  C8_fingerprint_field_independent "couponscorpion" itemOld itemNew rfl rfl

/-- C9 counterexample: the worker job is scheduled with a bare interval
trigger, so its first firing is exactly one full monitor interval after
scheduler start; no cycle runs before the first interval has elapsed. -/
theorem C9_counterexample :
    workerFireTime 0 = MONITOR_INTERVAL_SECONDS ∧
    ¬ workerFireTime 0 < MONITOR_INTERVAL_SECONDS := by decide

/-- C9 amended: the dispatch cycle runs repeatedly on the fixed monitor
interval, with the first run one full interval after scheduler start,
not at process start. -/
theorem C9_interval_schedule :
    workerFireTime 0 = MONITOR_INTERVAL_SECONDS ∧
    ∀ k : Nat, workerFireTime (k + 1) =
      workerFireTime k + MONITOR_INTERVAL_SECONDS := by
  constructor
  · decide
  · intro k
    simp only [workerFireTime]
    ring

/-- C10: the separators are not escaped in the fields, so two items with
the same source but different slug and coupon pairs share a
fingerprint. -/
theorem C10_fingerprint_collision :
    make_id "src" (some "a:b") (some "c") =
      make_id "src" (some "a") (some "b:c") ∧
    make_id "src" (some "a:b") (some "c") = "src|a:b:c" ∧
    ((some "a:b" : Option String), (some "c" : Option String)) ≠
      (some "a", some "b:c") := by decide

end UdemyBot
